import Mathlib

/-!
Verification of the WinCNC post-processor (`wincnc_post.py`).

The file shallowly embeds the post-processor's command-serialization engine:
`processArguments`, `export` (named `exportText` here, since `export` is a
Lean keyword), `linenumber` and `parse`, together with the module-level
constants they read.  Numeric command parameters, which the source stores as
Python floats, are modelled by `PyFloat`, an exact (unnormalized) rational
pair compared by cross-multiplication; the external unit-conversion
collaborator (`Units.Quantity(...).getValueAs(...)`) is modelled by two
function fields of `Settings` (`convLength`, `convSpeed`), and the fixed
`datetime.now()` header timestamp by the field `nowStr`.  The process-wide
mutable globals `LINENR` and `first_tool_change_skipped` are threaded through
every function as a `GState` value; `GState.emitted` is a specification-only
ghost list recording, in order, every line number the run emits (it is
appended to exactly where the source's `linenumber()` returns a fresh
number, and is read by no executable branch).

Python's dynamic behaviour is kept: the accumulator `out` of `parse` is a
`PyOut`, a string plus an `isList` flag so that the statement `out = []` in
the message branch (which replaces the string by an empty Python list) and
the later list/str `+=` semantics are represented exactly, and the
`TypeError` that the source then raises when a caller concatenates the
returned list into a string shows up as `PExc.typeError`.  `pop` on an empty
list and indexing `c.Name[0]` on an empty name raise `indexError`, and
`currLocation[param]` on a missing key raises `keyError`.
-/

/-! ## Exact numbers standing in for Python floats -/

/-- An exact rational `num / den` (with `den` kept positive by every
constructor used here), standing in for a Python float parameter value.
Comparisons are by cross-multiplication, mirroring numeric equality of the
source's float values. -/
structure PyFloat where
  num : Int
  den : Int
deriving DecidableEq, Repr

/-- Numeric equality of two `PyFloat`s (the `==` of the source on floats). -/
def pyBeq (a b : PyFloat) : Bool := a.num * b.den == b.num * a.den

/-- Numeric strict order (the `<` / `>` of the source on floats). -/
def pyLt (a b : PyFloat) : Bool := a.num * b.den < b.num * a.den

instance : BEq PyFloat := ⟨pyBeq⟩

def pyZero : PyFloat := ⟨0, 1⟩

/-- Embed an integer. -/
def qInt (n : Int) : PyFloat := ⟨n, 1⟩

/-- Python's `int(x)`: truncation toward zero (`Int.tdiv` is T-division). -/
def pyTrunc (q : PyFloat) : Int := Int.tdiv q.num q.den

/-- Left-pad a numeral string with zeros to width `w`. -/
def padZeros (w : Nat) (str : String) : String :=
  String.mk (List.replicate (w - str.length) '0') ++ str

/-- Fixed-point decimal formatting of `q` with `prec` fractional digits:
the model of Python's `format(float(x), '.{prec}f')` (ties round away from
the floor; the claims never exercise a tie). -/
def fmtFix (prec : Nat) (q : PyFloat) : String :=
  let p : Int := (10 : Int) ^ prec
  let scaled : Int := Int.fdiv (2 * q.num * p + q.den) (2 * q.den)
  let sgn := if scaled < 0 then "-" else ""
  let m := scaled.natAbs
  let ip := m / 10 ^ prec
  let fp := m % 10 ^ prec
  sgn ++ toString ip ++ "." ++ padZeros prec (toString fp)

/-! ## Python string helpers -/

/-- `str.replace(a, b)` for a one-character pattern and replacement, the only
form the source uses (`replace('(', '[')` and `replace(')', ']')`). -/
def replaceChar (a b : Char) (s : String) : String :=
  String.mk (s.data.map (fun c => if c == a then b else c))

/-- Worker for `pySplitlines`; `acc` holds the current line reversed. -/
def pySplitlinesChars (keepends : Bool) : List Char → List Char → List String
  | acc, [] => if acc.isEmpty then [] else [String.mk acc.reverse]
  | acc, c :: rest =>
    if c == '\n' then
      (String.mk (if keepends then (c :: acc).reverse else acc.reverse)) ::
        pySplitlinesChars keepends [] rest
    else
      pySplitlinesChars keepends (c :: acc) rest

/-- Python's `str.splitlines(keepends)` restricted to `'\n'` terminators,
the only terminator occurring in the source's text blocks. -/
def pySplitlines (keepends : Bool) (str : String) : List String :=
  pySplitlinesChars keepends [] str.data

/-- Concatenation of a list of strings. -/
def strJoin : List String → String
  | [] => ""
  | l :: rest => l ++ strJoin rest

/-- Is `pat` a prefix of `l`? -/
def isPref : List Char → List Char → Bool
  | [], _ => true
  | _ :: _, [] => false
  | a :: as, b :: bs => a == b && isPref as bs

/-- Does `pat` occur as a contiguous run inside `l`? -/
def hasSub (pat : List Char) : List Char → Bool
  | [] => isPref pat []
  | l@(_ :: rest) => isPref pat l || hasSub pat rest

/-- Does the string `pat` occur inside the string `s`? -/
def strContains (s pat : String) : Bool := hasSub pat.data s.data

/-- Number of positions of `l` at which `pat` matches. -/
def countSub (pat : List Char) : List Char → Nat
  | [] => 0
  | l@(_ :: rest) => (if isPref pat l then 1 else 0) + countSub pat rest

/-! ## Data model -/

/-- One abstract path command: `c.Name` and `c.Parameters`.  Parameters are
a finite mapping from parameter letter to numeric value, modelled as an
association list with unique keys. -/
structure Command where
  name : String
  parameters : List (String × PyFloat)
deriving DecidableEq, Repr

/-- The attributes the emitter reads off a path object, each optional
exactly where the source probes with `hasattr`.  `path = none` models the
absence of a `Path` attribute; `toolLabel` models `obj.Tool.Label`. -/
structure ObjInfo where
  name : String
  label : String
  active : Option Bool
  baseActive : Option Bool
  coolantMode : Option String
  baseCoolant : Option String
  toolLabel : String
  path : Option (List Command)
deriving Repr

mutual
/-- A path container: `group` corresponds to a source object with a `Group`
attribute (compound/project), `simple` to one without. -/
inductive PathObj where
  | simple : ObjInfo → PathObj
  | group : ObjInfo → PathList → PathObj

/-- A list of child containers (kept as a mutual inductive so that the
recursive emitter is structurally recursive and computes in the kernel). -/
inductive PathList where
  | nil : PathList
  | cons : PathObj → PathList → PathList
end

/-- The attributes of a container. -/
def PathObj.info : PathObj → ObjInfo
  | .simple i => i
  | .group i _ => i

/-- Appending child lists. -/
def plAppend : PathList → PathList → PathList
  | .nil, ys => ys
  | .cons x xs, ys => .cons x (plAppend xs ys)

/-- The value of the Python variable `out` inside `parse`: its text content
together with whether the variable currently holds a list (after the
message branch's `out = []`) rather than a string.  A Python `list += str`
extends the list with the string's characters, so the text content evolves
exactly as string concatenation does, and only the flag distinguishes the
two dynamic types. -/
structure PyOut where
  text : String
  isList : Bool
deriving DecidableEq, Repr

/-- `out += str` (string concatenation, or per-character list extension). -/
def pyAppend (o : PyOut) (str : String) : PyOut := ⟨o.text ++ str, o.isList⟩

/-- The local state of one `parse` call over a simple path: the variables
`lastcommand` and `currLocation`. -/
structure LState where
  lastcommand : Option String
  currLocation : List (String × PyFloat)
deriving DecidableEq, Repr

/-- The process-wide mutable globals: `LINENR` and
`first_tool_change_skipped`.  `emitted` is a specification-only ghost list
of the line numbers handed out so far; no executable branch reads it. -/
structure GState where
  LINENR : Nat
  first_tool_change_skipped : Bool
  emitted : List Nat
deriving DecidableEq, Repr

/-- The global state as the module leaves it at import time. -/
def initGState : GState := ⟨100, false, []⟩

/-- Python exceptions the embedded code can raise. -/
inductive PExc where
  | typeError
  | indexError
  | keyError
  | notAPath (name : String)
deriving DecidableEq, Repr

/-- The configuration globals after `processArguments`, plus the two
unit-conversion functions supplied by the external units collaborator and
the fixed timestamp string. -/
structure Settings where
  OUTPUT_HEADER : Bool
  OUTPUT_COMMENTS : Bool
  OUTPUT_LINE_NUMBERS : Bool
  SHOW_EDITOR : Bool
  PRECISION : Nat
  PREAMBLE : String
  POSTAMBLE : String
  UNITS : String
  UNIT_SPEED_FORMAT : String
  UNIT_FORMAT : String
  MODAL : Bool
  USE_TLO : Bool
  OUTPUT_DOUBLES : Bool
  COMMAND_SPACE : String
  SKIP_FIRST_TOOLCHANGE : Bool
  convLength : PyFloat → PyFloat
  convSpeed : PyFloat → PyFloat
  nowStr : String

/-- The parsed command-line flags of the `wincnc` argument parser, with the
parser's defaults. -/
structure Args where
  no_header : Bool := false
  no_comments : Bool := false
  line_numbers : Bool := false
  no_show_editor : Bool := false
  precision : Nat := 3
  preamble : Option String := none
  postamble : Option String := none
  inches : Bool := false
  modal : Bool := false
  axis_modal : Bool := false
  no_tlo : Bool := false

/-! ## Module constants -/

def PREAMBLE_DEFAULT : String :=
  "G54\t\t[Using G54 Workspace]\nG40\t\t[Tool Cutter Compensation Off]\nG49\t\t[Tool Length Offset Off]\nG90\t\t[Absolute Mode]\nG53 Z0\t\t[Lift Z to top]\n"

def POSTAMBLE_DEFAULT : String :=
  "G53 Z0\t\t[Rapid Move Z to 0]\nM05\t\t[Turn Spindle Off]\n"

def PRE_TOOL_CHANGE : String :=
  "G28Z\t\t\t\t[Go to Machine Z0]\nG53Z\t\t\t\t[Lift Z (Rapid)]\nM5\t\t\t\t[Turn Spindle Off]\nG53 X0 Y0"

def TOOL_CHANGE : String :=
  "G5 T2 M\"Press OK to Measure Tool.\"\nL21\t\t\t\t[Disable Soft Limits]\nL210Z\t\t\t\t[Select Z Alt Low Limits]\nG53 Z0\nG53 X{TMX}Y{TMY}\t\t[Move to Tool Measure Switch X/Y Coordinates]\nL91 G0 Z{TMD}\nL91 G1 Z-9 M28 F20 G31\t\t[Perform Measurement of Tool]\nM37 Z{TM1} H{TP1}\t\t[Set New Tool Offset]\nG53 Z0\nL91 G1 Z0 F50\nL212\t\t\t\t[Select Primary Limits for All Axes]\nG0\nG53 X0 Y0\nG5 T2 M\"Please Replace Dust Boot. Press OK when done.\"\nG5 T2 M\"Continue Job?\"\n"

/-- `TOOL_CHANGE_NOTIFICATION.format(tool_num = label)`. -/
def toolChangeNotificationText (label : String) : String :=
  "\nG5 T2 M\"Please Change Tool to \x27" ++ label ++
    "\x27. Press OK when done (Keep Dust Boot Off!).\"\n"

/-- `__name__` of the module as imported. -/
def POST_NAME : String := "wincnc_post"

/-- The fixed parameter emission order of `parse`. -/
def paramsOrder : List String :=
  ["X", "Y", "Z", "A", "B", "C", "I", "J", "S", "T", "Q", "R", "F", "L", "H", "D", "P"]

/-- `Path.Command("G0", {"X": -1, "Y": -1, "Z": -1, "F": 0.0}).Parameters`,
the synthetic first move seeding `currLocation`. -/
def firstmoveParams : List (String × PyFloat) :=
  [("X", qInt (-1)), ("Y", qInt (-1)), ("Z", qInt (-1)), ("F", pyZero)]

/-- The local state at the top of a `parse` call over a simple path. -/
def initLState : LState := ⟨none, firstmoveParams⟩

/-! ## Configuration resolution -/

/-- The configuration globals at module import time (before
`processArguments` overrides them), parameterized by the external
collaborators. -/
def moduleDefaults (convL convS : PyFloat → PyFloat) (nowStr : String) : Settings :=
  { OUTPUT_HEADER := true
    OUTPUT_COMMENTS := true
    OUTPUT_LINE_NUMBERS := false
    SHOW_EDITOR := true
    PRECISION := 7
    PREAMBLE := PREAMBLE_DEFAULT
    POSTAMBLE := POSTAMBLE_DEFAULT
    UNITS := "G20"
    UNIT_SPEED_FORMAT := "in/min"
    UNIT_FORMAT := "in"
    MODAL := false
    USE_TLO := true
    OUTPUT_DOUBLES := true
    COMMAND_SPACE := " "
    SKIP_FIRST_TOOLCHANGE := true
    convLength := convL
    convSpeed := convS
    nowStr := nowStr }

/-- `processArguments`, applied to an already parsed flag record: each flag
overrides the corresponding global, in the source's order. -/
def processArguments (args : Args) (s : Settings) : Settings :=
  let s := if args.no_header then { s with OUTPUT_HEADER := false } else s
  let s := if args.no_comments then { s with OUTPUT_COMMENTS := false } else s
  let s := if args.line_numbers then { s with OUTPUT_LINE_NUMBERS := true } else s
  let s := if args.no_show_editor then { s with SHOW_EDITOR := false } else s
  let s := { s with PRECISION := args.precision }
  let s := match args.preamble with
           | some p => { s with PREAMBLE := p }
           | none => s
  let s := match args.postamble with
           | some p => { s with POSTAMBLE := p }
           | none => s
  let s := if args.inches then
             { s with UNITS := "G20", UNIT_SPEED_FORMAT := "in/min",
                      UNIT_FORMAT := "in", PRECISION := 4 }
           else s
  let s := if args.modal then { s with MODAL := true } else s
  let s := if args.no_tlo then { s with USE_TLO := false } else s
  let s := if args.axis_modal then { s with OUTPUT_DOUBLES := false } else s
  s

/-! ## Line numbering and small emission helpers -/

/-- `linenumber()`: with numbering on, advance `LINENR` by 10 and return the
fresh prefix; the fresh number is also recorded in the ghost list. -/
def linenumber (s : Settings) (gs : GState) : String × GState :=
  if s.OUTPUT_LINE_NUMBERS then
    ("N" ++ toString (gs.LINENR + 10) ++ " ",
     { gs with LINENR := gs.LINENR + 10, emitted := gs.emitted ++ [gs.LINENR + 10] })
  else
    ("", gs)

/-- `gcode += linenumber() + txt`. -/
def emitLn (s : Settings) (txt : String) (g : String) (gs : GState) : String × GState :=
  let (ln, gs') := linenumber s gs
  (g ++ ln ++ txt, gs')

/-- A conditionally emitted `linenumber()`-prefixed line. -/
def emitLnIf (s : Settings) (b : Bool) (txt : String) (g : String) (gs : GState) :
    String × GState :=
  if b then emitLn s txt g gs else (g, gs)

/-- `for line in block.splitlines(False): gcode += linenumber() + line + "\n"`. -/
def emitPreLines (s : Settings) : List String → String → GState → String × GState
  | [], g, gs => (g, gs)
  | l :: rest, g, gs =>
    let (g', gs') := emitLn s (l ++ "\n") g gs
    emitPreLines s rest g' gs'

/-- `for line in block.splitlines(True): gcode += linenumber() + line`. -/
def emitPostLines (s : Settings) : List String → String → GState → String × GState
  | [], g, gs => (g, gs)
  | l :: rest, g, gs =>
    let (g', gs') := emitLn s l g gs
    emitPostLines s rest g' gs'

/-- `for line in block.splitlines(True): out += linenumber() + line`, on the
`parse`-local accumulator. -/
def emitBlockOut (s : Settings) : List String → PyOut → GState → PyOut × GState
  | [], out, gs => (out, gs)
  | l :: rest, out, gs =>
    let (ln, gs') := linenumber s gs
    emitBlockOut s rest (pyAppend out (ln ++ l)) gs'

/-! ## Dictionary and list primitives of the command loop -/

/-- Lookup in a parameter dictionary (`param in d` / `d[param]`). -/
def qLookup (m : List (String × PyFloat)) (k : String) : Option PyFloat :=
  match m with
  | [] => none
  | (k', v) :: rest => if k' == k then some v else qLookup rest k

/-- Set one key of a dictionary, preserving insertion order. -/
def setKey (m : List (String × PyFloat)) (k : String) (v : PyFloat) :
    List (String × PyFloat) :=
  match m with
  | [] => [(k, v)]
  | (k', v') :: rest => if k' == k then (k', v) :: rest else (k', v') :: setKey rest k v

/-- `d.update(upd)`: merge every binding of `upd` into `m`. -/
def updMap (m upd : List (String × PyFloat)) : List (String × PyFloat) :=
  match upd with
  | [] => m
  | (k, v) :: rest => updMap (setKey m k v) rest

/-- Python `list.pop(0)` (raises `IndexError` on an empty list). -/
def pyPop0 : List String → Except PExc (List String)
  | [] => .error .indexError
  | _ :: t => .ok t

/-- Python `list.pop()` (drop the last element; raises on an empty list). -/
def pyPopLast (l : List String) : Except PExc (List String) :=
  if l.isEmpty then .error .indexError else .ok l.dropLast

/-! ## The command serializer (`parse` and its loop body) -/

/-- The test `param == 'F' and (currLocation[param] != c.Parameters[param] or
OUTPUT_DOUBLES)` of source line 410; `currLocation[param]` is read before the
`or` short-circuits, so a missing tracked feed is a `KeyError` (never reached
in real runs: the feed is seeded at the top of `parse`). -/
def fTestE (s : Settings) (loc : List (String × PyFloat)) (param : String)
    (v : PyFloat) : Except PExc Bool :=
  if param == "F" then
    match qLookup loc "F" with
    | none => .error .keyError
    | some fv => .ok (!pyBeq fv v || s.OUTPUT_DOUBLES)
  else .ok false

/-- One iteration of `parse`'s parameter loop (source lines 408-431): the
`if param == 'F' and (...)` / `elif` chain for a single `param`, appending
to the token list `acc`. -/
def procParam (s : Settings) (cname : String) (cparams loc : List (String × PyFloat))
    (acc : List String) (param : String) : Except PExc (List String) :=
  match qLookup cparams param with
  | none => .ok acc
  | some v =>
    match fTestE s loc param v with
    | .error e => .error e
    | .ok ft =>
      if param == "F" && ft then
        if !(cname == "G0" || cname == "G00") then
          -- speed = Units.Quantity(c.Parameters['F'], Velocity) in the unit
          if pyLt pyZero (s.convSpeed v) then
            .ok (acc ++ [param ++ fmtFix s.PRECISION (s.convSpeed v)])
          else .ok acc
        else .ok acc
      else if param == "T" then .ok (acc ++ [param ++ toString (pyTrunc v)])
      else if param == "H" then .ok (acc ++ [param ++ toString (pyTrunc v)])
      else if param == "D" then .ok (acc ++ [param ++ toString (pyTrunc v)])
      else if param == "S" then .ok (acc ++ [param ++ toString (pyTrunc v)])
      else
        if !s.OUTPUT_DOUBLES && qLookup loc param == some v then
          .ok acc
        else
          .ok (acc ++ [param ++ fmtFix s.PRECISION (s.convLength v)])

/-- The parameter loop folded over a list of parameter letters. -/
def buildParamsAux (s : Settings) (cname : String)
    (cparams loc : List (String × PyFloat)) :
    List String → List String → Except PExc (List String)
  | acc, [] => .ok acc
  | acc, p :: rest =>
    match procParam s cname cparams loc acc p with
    | .error e => .error e
    | .ok acc' => buildParamsAux s cname cparams loc acc' rest

/-- The full parameter loop, in the fixed order `paramsOrder`. -/
def buildParams (s : Settings) (cname : String)
    (cparams loc : List (String × PyFloat)) (init : List String) :
    Except PExc (List String) :=
  buildParamsAux s cname cparams loc init paramsOrder

/-- `command.replace('(', '[').replace(')', ']')`. -/
def rewriteComment (name : String) : String :=
  replaceChar ')' ']' (replaceChar '(' '[' name)

/-- Source lines 472-481: if any token remains, optionally insert a line
number at position 0, then append every token followed by `COMMAND_SPACE`
and terminate the line. -/
def genericEmit (s : Settings) (outstring : List String) (out : PyOut) (gs : GState) :
    PyOut × GState :=
  if outstring.length ≥ 1 then
    let lngs :=
      if s.OUTPUT_LINE_NUMBERS then
        let r := linenumber s gs
        (r.1 :: outstring, r.2)
      else (outstring, gs)
    (pyAppend (lngs.1.foldl (fun o w => pyAppend o (w ++ s.COMMAND_SPACE)) out) "\n",
     lngs.2)
  else (out, gs)

/-- Source lines 446-452: the tool-change macro emission — the
`PRE_TOOL_CHANGE` block line by line, the formatted notification (not
line-numbered), then the `TOOL_CHANGE` block line by line. -/
def emitToolChange (s : Settings) (toolLabel : String) (out : PyOut) (gs : GState) :
    PyOut × GState :=
  let r1 := emitBlockOut s (pySplitlines true PRE_TOOL_CHANGE) out gs
  let out1 := pyAppend r1.1 (toolChangeNotificationText toolLabel)
  emitBlockOut s (pySplitlines true TOOL_CHANGE) out1 r1.2

/-- The comment branch with comments enabled (source lines 400-401):
`outstring.pop(); outstring.append(command.replace('(','[').replace(')',']'))`. -/
def commentTokens (outstring : List String) (command : String) :
    Except PExc (List String) :=
  match pyPopLast outstring with
  | .error e => .error e
  | .ok t => .ok (t ++ [rewriteComment command])

/-- The message branch (source lines 465-469): with comments disabled the
accumulator is replaced by an empty Python list (`out = []`); otherwise
`outstring.pop(0)` removes the leading token. -/
def messageAdjust (comments : Bool) (out : PyOut) (outstring : List String) :
    Except PExc (PyOut × List String) :=
  if comments == false then
    .ok (⟨"", true⟩, outstring)
  else
    match pyPop0 outstring with
    | .error e => .error e
    | .ok t => .ok (out, t)

/-- The body of `parse`'s `for c in pathobj.Path.Commands` loop for a single
command `c` (source lines 387-481), threading the accumulator and both
state records.  Every `continue` of the source is a plain return of the
state reached at that point. -/
def processCommand (s : Settings) (toolLabel : String) (c : Command)
    (out : PyOut) (ls : LState) (gs : GState) :
    Except PExc (PyOut × LState × GState) :=
  let command := c.name
  let outstring : List String := [command]
  -- if MODAL: suppress the command name if it repeats (outstring.pop(0))
  let outstring :=
    if s.MODAL && (ls.lastcommand == some command) then outstring.drop 1 else outstring
  -- c.Name[0] (IndexError on an empty name)
  match c.name.data with
  | [] => .error .indexError
  | ch0 :: _ =>
    if ch0 == '(' && !s.OUTPUT_COMMENTS then
      -- comment with comments suppressed: continue (no output, no state update)
      .ok (out, ls, gs)
    else
      match (if ch0 == '(' then commentTokens outstring command else .ok outstring) with
      | .error e => .error e
      | .ok outstring =>
        if command == "G99" then
          -- intercept G99: continue (no token, no line, no state update)
          .ok (out, ls, gs)
        else
          match buildParams s command c.parameters ls.currLocation outstring with
          | .error e => .error e
          | .ok outstring =>
            -- store the latest command (happens before the tool-change check)
            let ls' : LState := ⟨some command, updMap ls.currLocation c.parameters⟩
            if command == "M6" then
              if s.SKIP_FIRST_TOOLCHANGE && !gs.first_tool_change_skipped then
                .ok (out, ls', { gs with first_tool_change_skipped := true })
              else
                let r := emitToolChange s toolLabel out gs
                .ok (r.1, ls', r.2)
            else
              match (if command == "message" then
                       messageAdjust s.OUTPUT_COMMENTS out outstring
                     else .ok (out, outstring)) with
              | .error e => .error e
              | .ok (out, outstring) =>
                let r := genericEmit s outstring out gs
                .ok (r.1, ls', r.2)

/-- `parse`'s command loop over a whole command list. -/
def processCommands (s : Settings) (toolLabel : String) :
    List Command → PyOut → LState → GState → Except PExc (PyOut × LState × GState)
  | [], out, ls, gs => .ok (out, ls, gs)
  | c :: cs, out, ls, gs =>
    match processCommand s toolLabel c out ls gs with
    | .error e => .error e
    | .ok (out', ls', gs') => processCommands s toolLabel cs out' ls' gs'

mutual
/-- `parse(pathobj)`.  A group iterates `out += parse(p)` over its children
with a fresh string accumulator; a simple object without a `Path` attribute
returns the empty string; otherwise the command loop runs with a fresh
`lastcommand`/`currLocation`.  The local state is discarded on return. -/
def parse (s : Settings) (p : PathObj) (gs : GState) : Except PExc (PyOut × GState) :=
  match p with
  | .group _ children => parseGroup s children ⟨"", false⟩ gs
  | .simple info =>
    match info.path with
    | none => .ok (⟨"", false⟩, gs)
    | some cmds =>
      match processCommands s info.toolLabel cmds ⟨"", false⟩ initLState gs with
      | .error e => .error e
      | .ok (out, _, gs') => .ok (out, gs')

/-- The group loop `for p in pathobj.Group: out += parse(p)`.  When a child
returns a list (the message/no-comments bug), the string `+=` raises a
`TypeError`. -/
def parseGroup (s : Settings) (ps : PathList) (out : PyOut) (gs : GState) :
    Except PExc (PyOut × GState) :=
  match ps with
  | .nil => .ok (out, gs)
  | .cons p rest =>
    match parse s p gs with
    | .error e => .error e
    | .ok (o, gs') =>
      if o.isList then .error .typeError
      else parseGroup s rest (pyAppend out o.text) gs'
end

/-! ## The top-level `export` -/

/-- The up-front scan of source lines 221-224: the first top-level object
without a `Path` attribute, if any. -/
def findNoPath : List PathObj → Option ObjInfo
  | [] => none
  | o :: rest => if o.info.path.isNone then some o.info else findNoPath rest

/-- The per-object body of `export`'s main loop, source lines 242-309. -/
def exportLoop (s : Settings) :
    List PathObj → String → GState → Except PExc (String × GState)
  | [], gcode, gs => .ok (gcode, gs)
  | obj :: rest, gcode, gs =>
    let info := obj.info
    if info.active == some false then exportLoop s rest gcode gs
    else if info.baseActive == some false then exportLoop s rest gcode gs
    else
      let r1 := emitLnIf s s.OUTPUT_COMMENTS
        ("[Operation: " ++ info.label ++ " (" ++ s.UNIT_SPEED_FORMAT ++ ")]\n") gcode gs
      -- PRE_OPERATION is the empty block: no lines
      let coolantMode : String :=
        match info.coolantMode with
        | some m => m
        | none =>
          match info.baseCoolant with
          | some m => m
          | none => "None"
      let r2 := emitLnIf s (s.OUTPUT_COMMENTS && coolantMode != "None")
        ("[Coolant On:" ++ coolantMode ++ "]\n") r1.1 r1.2
      let r3 := emitLnIf s (coolantMode == "Flood") ("M8" ++ "\n") r2.1 r2.2
      let r4 := emitLnIf s (coolantMode == "Mist") ("M7" ++ "\n") r3.1 r3.2
      match parse s obj r4.2 with
      | .error e => .error e
      | .ok (o, gs5) =>
        if o.isList then .error .typeError  -- gcode += parse(obj) on a list
        else
          -- POST_OPERATION is the empty block: no lines; then gcode += "\n"
          let g5 := r4.1 ++ o.text ++ "\n"
          let r6 :=
            if coolantMode != "None" then
              let r5 := emitLnIf s s.OUTPUT_COMMENTS
                ("[Coolant Off:" ++ coolantMode ++ "]\n") g5 gs5
              emitLn s ("M9" ++ "\n") r5.1 r5.2
            else (g5, gs5)
          exportLoop s rest r6.1 r6.2

/-- The header block, source lines 230-233. -/
def emitHeader (s : Settings) (g : String) (gs : GState) : String × GState :=
  let r1 := emitLn s "[Exported by FreeCAD]\n" g gs
  let r2 := emitLn s ("[Post Processor: " ++ POST_NAME ++ "]\n") r1.1 r1.2
  emitLn s ("[Output Time:" ++ s.nowStr ++ "]\n\n") r2.1 r2.2

/-- The preamble block and units line, source lines 236-240. -/
def emitPreamble (s : Settings) (g : String) (gs : GState) : String × GState :=
  let r1 := emitLnIf s s.OUTPUT_COMMENTS "[Begin Preamble]\n" g gs
  let r2 := emitPreLines s (pySplitlines false s.PREAMBLE) r1.1 r1.2
  emitLn s (s.UNITS ++ "\t\t[Units: " ++ s.UNIT_FORMAT ++ "]\n\n") r2.1 r2.2

/-- `export(objectslist, filename, argstring)` after argument resolution
(the source name `export` is a Lean keyword).  The editor preview and the
file write are the excluded UI/I-O collaborators; the returned string is
the `final` text.  A top-level object without a `Path` attribute is
reported by name and aborts the run with no output. -/
def exportText (s : Settings) (objs : List PathObj) (gs : GState) :
    Except PExc (String × GState) :=
  match findNoPath objs with
  | some info => .error (.notAPath info.name)
  | none =>
    let r1 := if s.OUTPUT_HEADER then emitHeader s "" gs else ("", gs)
    let r2 := emitPreamble s r1.1 r1.2
    match exportLoop s objs r2.1 r2.2 with
    | .error e => .error e
    | .ok (gcode, gs3) =>
      let g3 := if s.OUTPUT_COMMENTS then gcode ++ "[Postamble]\n" else gcode
      .ok (emitPostLines s (pySplitlines true s.POSTAMBLE) g3 gs3)

/-! ## Shared concrete fixtures -/

/-- The effective settings after `processArguments` on an empty argument
string, with identity unit conversions (canonical unit = output unit) and a
fixed timestamp. -/
def sBase : Settings :=
  { OUTPUT_HEADER := true, OUTPUT_COMMENTS := true, OUTPUT_LINE_NUMBERS := false,
    SHOW_EDITOR := true, PRECISION := 3, PREAMBLE := PREAMBLE_DEFAULT,
    POSTAMBLE := POSTAMBLE_DEFAULT, UNITS := "G20", UNIT_SPEED_FORMAT := "in/min",
    UNIT_FORMAT := "in", MODAL := false, USE_TLO := true, OUTPUT_DOUBLES := true,
    COMMAND_SPACE := " ", SKIP_FIRST_TOOLCHANGE := true,
    convLength := fun q => q, convSpeed := fun q => q, nowStr := "2022-01-01 00:00:00" }

/-- `sBase` with all decorative output turned off, for small concrete runs. -/
def sPlain : Settings :=
  { sBase with OUTPUT_HEADER := false, OUTPUT_COMMENTS := false,
               PREAMBLE := "", POSTAMBLE := "" }

/-- A minimal container attribute record. -/
def infoBase : ObjInfo :=
  { name := "op", label := "op", active := none, baseActive := none,
    coolantMode := none, baseCoolant := none, toolLabel := "T2", path := none }

/-! ## State-evolution infrastructure

Every change the emitter makes to the global state goes through exactly two
primitive steps: a `linenumber` call and the tool-change branch's setting of
`first_tool_change_skipped`.  A predicate closed under those two steps is
therefore an invariant of every emitter function. -/

/-- `P` is preserved by both primitive global-state steps under settings `s`. -/
def StepClosed (s : Settings) (P : GState → Prop) : Prop :=
  (∀ g, P g → P (linenumber s g).2) ∧
  (∀ g, P g → P { g with first_tool_change_skipped := true })

theorem pres_emitLn {s P} (hP : StepClosed s P) (txt g : String) {gs : GState}
    (h : P gs) : P (emitLn s txt g gs).2 := by
  show P (linenumber s gs).2
  exact hP.1 gs h

theorem pres_emitLnIf {s P} (hP : StepClosed s P) (b : Bool) (txt g : String)
    {gs : GState} (h : P gs) : P (emitLnIf s b txt g gs).2 := by
  unfold emitLnIf
  split
  · exact pres_emitLn hP txt g h
  · exact h

theorem pres_emitPreLines {s P} (hP : StepClosed s P) (ls : List String) :
    ∀ (g : String) (gs : GState), P gs → P (emitPreLines s ls g gs).2 := by
  induction ls with
  | nil => intro g gs h; exact h
  | cons l rest ih =>
    intro g gs h
    show P (emitPreLines s rest (emitLn s (l ++ "\n") g gs).1
            (emitLn s (l ++ "\n") g gs).2).2
    exact ih _ _ (pres_emitLn hP (l ++ "\n") g h)

theorem pres_emitPostLines {s P} (hP : StepClosed s P) (ls : List String) :
    ∀ (g : String) (gs : GState), P gs → P (emitPostLines s ls g gs).2 := by
  induction ls with
  | nil => intro g gs h; exact h
  | cons l rest ih =>
    intro g gs h
    show P (emitPostLines s rest (emitLn s l g gs).1 (emitLn s l g gs).2).2
    exact ih _ _ (pres_emitLn hP l g h)

theorem pres_emitBlockOut {s P} (hP : StepClosed s P) (ls : List String) :
    ∀ (out : PyOut) (gs : GState), P gs → P (emitBlockOut s ls out gs).2 := by
  induction ls with
  | nil => intro out gs h; exact h
  | cons l rest ih =>
    intro out gs h
    show P (emitBlockOut s rest (pyAppend out ((linenumber s gs).1 ++ l))
            (linenumber s gs).2).2
    exact ih _ _ (hP.1 gs h)

theorem pres_emitHeader {s P} (hP : StepClosed s P) (g : String) {gs : GState}
    (h : P gs) : P (emitHeader s g gs).2 := by
  unfold emitHeader
  exact pres_emitLn hP _ _ (pres_emitLn hP _ _ (pres_emitLn hP _ _ h))

theorem pres_emitPreamble {s P} (hP : StepClosed s P) (g : String) {gs : GState}
    (h : P gs) : P (emitPreamble s g gs).2 := by
  unfold emitPreamble
  exact pres_emitLn hP _ _ (pres_emitPreLines hP _ _ _ (pres_emitLnIf hP _ _ _ h))

theorem pres_genericEmit {s P} (hP : StepClosed s P) (os : List String) (out : PyOut)
    {gs : GState} (h : P gs) : P (genericEmit s os out gs).2 := by
  unfold genericEmit
  split
  · dsimp only
    split
    · exact hP.1 gs h
    · exact h
  · exact h

theorem pres_emitToolChange {s P} (hP : StepClosed s P) (tl : String) (out : PyOut)
    {gs : GState} (h : P gs) : P (emitToolChange s tl out gs).2 := by
  unfold emitToolChange
  exact pres_emitBlockOut hP _ _ _ (pres_emitBlockOut hP _ _ _ h)

theorem pres_processCommand {s P} (hP : StepClosed s P) {tl : String} {c : Command}
    {out : PyOut} {ls : LState} {gs : GState} {r : PyOut × LState × GState}
    (h : P gs) (he : processCommand s tl c out ls gs = .ok r) : P r.2.2 := by
  unfold processCommand at he
  dsimp only at he
  repeat' split at he
  all_goals first
    | exact Except.noConfusion he
    | (injection he with he2
       subst he2
       first
         | exact h
         | exact hP.2 gs h
         | exact pres_emitToolChange hP tl out h
         | exact pres_genericEmit hP _ _ h)

theorem pres_processCommands {s P} (hP : StepClosed s P) {tl : String}
    (cs : List Command) :
    ∀ (out : PyOut) (ls : LState) (gs : GState) (r : PyOut × LState × GState),
      P gs → processCommands s tl cs out ls gs = .ok r → P r.2.2 := by
  induction cs with
  | nil => intro out ls gs r h he; cases he; exact h
  | cons c rest ih =>
    intro out ls gs r h he
    simp only [processCommands] at he
    split at he
    · exact Except.noConfusion he
    · rename_i out' ls' gs' heq
      exact ih out' ls' gs' r (pres_processCommand hP h heq) he

mutual
theorem pres_parse {s : Settings} {P : GState → Prop} (hP : StepClosed s P)
    (p : PathObj) : ∀ (gs : GState) (r : PyOut × GState),
      P gs → parse s p gs = .ok r → P r.2 := by
  cases p with
  | simple info =>
    intro gs r h he
    simp only [parse] at he
    split at he
    · cases he; exact h
    · split at he
      · exact Except.noConfusion he
      · rename_i out ls' gs' heq
        cases he
        exact pres_processCommands hP _ _ _ _ _ h heq
  | group info children =>
    intro gs r h he
    simp only [parse] at he
    exact pres_parseGroup hP children ⟨"", false⟩ gs r h he

theorem pres_parseGroup {s : Settings} {P : GState → Prop} (hP : StepClosed s P)
    (ps : PathList) : ∀ (out : PyOut) (gs : GState) (r : PyOut × GState),
      P gs → parseGroup s ps out gs = .ok r → P r.2 := by
  cases ps with
  | nil => intro out gs r h he; cases he; exact h
  | cons p rest =>
    intro out gs r h he
    simp only [parseGroup] at he
    split at he
    · exact Except.noConfusion he
    · rename_i o gs' heq
      split at he
      · exact Except.noConfusion he
      · exact pres_parseGroup hP rest _ gs' r (pres_parse hP p gs _ h heq) he
end

theorem pres_exportLoop {s P} (hP : StepClosed s P) (objs : List PathObj) :
    ∀ (g : String) (gs : GState) (r : String × GState),
      P gs → exportLoop s objs g gs = .ok r → P r.2 := by
  induction objs with
  | nil => intro g gs r h he; cases he; exact h
  | cons obj rest ih =>
    intro g gs r h he
    simp only [exportLoop] at he
    split at he
    · exact ih g gs r h he
    · split at he
      · exact ih g gs r h he
      · split at he
        · exact Except.noConfusion he
        · rename_i o gs5 heq
          have p5 := pres_parse hP obj _ _ (pres_emitLnIf hP _ _ _
            (pres_emitLnIf hP _ _ _ (pres_emitLnIf hP _ _ _
              (pres_emitLnIf hP _ _ _ h)))) heq
          split at he
          · exact Except.noConfusion he
          · split at he
            · exact ih _ _ r (pres_emitLn hP _ _ (pres_emitLnIf hP _ _ _ p5)) he
            · exact ih _ _ r p5 he

theorem pres_exportText {s P} (hP : StepClosed s P) {objs : List PathObj}
    {gs : GState} {r : String × GState}
    (h : P gs) (he : exportText s objs gs = .ok r) : P r.2 := by
  unfold exportText at he
  split at he
  · exact Except.noConfusion he
  · dsimp only at he
    have p1 : P (if s.OUTPUT_HEADER then emitHeader s "" gs else ("", gs)).2 := by
      split
      · exact pres_emitHeader hP _ h
      · exact h
    have p2 := pres_emitPreamble hP
      (if s.OUTPUT_HEADER then emitHeader s "" gs else ("", gs)).1 p1
    split at he
    · exact Except.noConfusion he
    · rename_i gcode gs3 heq
      cases he
      exact pres_emitPostLines hP _ _ _ (pres_exportLoop hP objs _ _ _ p2 heq)

/-! ## The arithmetic of emitted line numbers -/

/-- The first `n` line numbers a fresh run hands out: `110, 120, ...`
(`LINENR` starts at 100 and is advanced by 10 *before* each use). -/
def arithProg (n : Nat) : List Nat := (List.range n).map (fun i => 110 + 10 * i)

/-- The line-number invariant: the ghost list is exactly the arithmetic
progression of its length and `LINENR` trails it. -/
def numsOK (g : GState) : Prop :=
  g.emitted = arithProg g.emitted.length ∧ g.LINENR = 100 + 10 * g.emitted.length

theorem arithProg_succ (n : Nat) :
    arithProg (n + 1) = arithProg n ++ [110 + 10 * n] := by
  unfold arithProg
  rw [List.range_succ, List.map_append]
  rfl

theorem stepClosed_numsOK (s : Settings) : StepClosed s numsOK := by
  constructor
  · intro g h
    unfold linenumber
    split
    · obtain ⟨h1, h2⟩ := h
      constructor
      · show g.emitted ++ [g.LINENR + 10] = arithProg (g.emitted ++ [g.LINENR + 10]).length
        rw [List.length_append, List.length_singleton, arithProg_succ]
        rw [← h1]
        congr 1
        rw [h2]
        congr 1
        omega
      · show g.LINENR + 10 = 100 + 10 * (g.emitted ++ [g.LINENR + 10]).length
        rw [List.length_append, List.length_singleton]
        omega
    · exact h
  · intro g h
    exact h

theorem stepClosed_flagTrue (s : Settings) :
    StepClosed s (fun g => g.first_tool_change_skipped = true) := by
  constructor
  · intro g h
    unfold linenumber
    split
    · exact h
    · exact h
  · intro g _
    rfl

theorem stepClosed_lineMono (s : Settings) (n : Nat) :
    StepClosed s (fun g => n ≤ g.LINENR) := by
  constructor
  · intro g h
    unfold linenumber
    split
    · show n ≤ g.LINENR + 10
      omega
    · exact h
  · intro g h
    exact h

theorem stepClosed_frozen (s : Settings) (hoff : s.OUTPUT_LINE_NUMBERS = false)
    (n : Nat) (e : List Nat) :
    StepClosed s (fun g => g.LINENR = n ∧ g.emitted = e) := by
  constructor
  · intro g h
    unfold linenumber
    split
    · rename_i hon
      rw [hoff] at hon
      exact absurd hon (by simp)
    · exact h
  · intro g h
    exact h

/-! ## Anatomy of the parameter loop -/

/-- The first character of a string. -/
def headChar (str : String) : Option Char := str.data.head?

theorem procParam_append (s : Settings) (cn : String)
    (cp loc : List (String × PyFloat)) (acc : List String) (p : String) :
    procParam s cn cp loc acc p =
      Except.map (fun ts => acc ++ ts) (procParam s cn cp loc [] p) := by
  unfold procParam
  cases hq : qLookup cp p with
  | none => simp [Except.map]
  | some v =>
    dsimp only
    cases hft : fTestE s loc p v with
    | error e => simp [Except.map]
    | ok ft =>
      repeat' split
      all_goals simp [Except.map]

theorem procParam_isOk (s : Settings) (cn : String)
    (cp loc : List (String × PyFloat)) (acc : List String) (p : String)
    (hf : (qLookup loc "F").isSome) :
    ∃ acc', procParam s cn cp loc acc p = .ok acc' := by
  unfold procParam
  cases hq : qLookup cp p with
  | none => exact ⟨acc, rfl⟩
  | some v =>
    dsimp only
    have hft : ∃ b, fTestE s loc p v = .ok b := by
      unfold fTestE
      split
      · cases hl : qLookup loc "F" with
        | none => rw [hl] at hf; exact absurd hf (by simp)
        | some fv => exact ⟨_, rfl⟩
      · exact ⟨false, rfl⟩
    obtain ⟨b, hb⟩ := hft
    rw [hb]
    dsimp only
    repeat' split
    all_goals exact ⟨_, rfl⟩

theorem buildParamsAux_isOk (s : Settings) (cn : String)
    (cp loc : List (String × PyFloat)) (hf : (qLookup loc "F").isSome) :
    ∀ (ps : List String) (acc : List String),
      ∃ ts, buildParamsAux s cn cp loc acc ps = .ok ts := by
  intro ps
  induction ps with
  | nil => intro acc; exact ⟨acc, rfl⟩
  | cons p rest ih =>
    intro acc
    obtain ⟨acc', hacc'⟩ := procParam_isOk s cn cp loc acc p hf
    obtain ⟨ts, hts⟩ := ih acc'
    refine ⟨ts, ?_⟩
    simp only [buildParamsAux]
    rw [hacc']
    exact hts

theorem buildParams_isOk (s : Settings) (cn : String)
    (cp loc : List (String × PyFloat)) (init : List String)
    (hf : (qLookup loc "F").isSome) :
    ∃ ts, buildParams s cn cp loc init = .ok ts :=
  buildParamsAux_isOk s cn cp loc hf paramsOrder init

theorem procParam_shape {s : Settings} {cn : String}
    {cp loc : List (String × PyFloat)} {p : String} {ts : List String}
    (he : procParam s cn cp loc [] p = .ok ts) :
    ∀ t ∈ ts, ∃ suf, t = p ++ suf := by
  unfold procParam at he
  split at he
  · cases he; intro t ht; exact absurd ht (List.not_mem_nil t)
  · split at he
    · exact Except.noConfusion he
    · repeat' split at he
      all_goals cases he
      all_goals intro t ht
      all_goals first
        | exact absurd ht (List.not_mem_nil t)
        | (simp only [List.nil_append, List.mem_singleton] at ht; exact ⟨_, ht⟩)

theorem buildParamsAux_mem (s : Settings) (cn : String)
    (cp loc : List (String × PyFloat)) :
    ∀ (ps : List String) (acc ts : List String),
      buildParamsAux s cn cp loc acc ps = .ok ts →
      ∀ t, t ∈ ts ↔ (t ∈ acc ∨ ∃ p, p ∈ ps ∧
        ∃ tsp, procParam s cn cp loc [] p = .ok tsp ∧ t ∈ tsp) := by
  intro ps
  induction ps with
  | nil =>
    intro acc ts he t
    cases he
    simp
  | cons p rest ih =>
    intro acc ts he t
    simp only [buildParamsAux] at he
    split at he
    · exact Except.noConfusion he
    · rename_i acc' heq
      rw [procParam_append] at heq
      cases hp : procParam s cn cp loc [] p with
      | error e => rw [hp] at heq; exact Except.noConfusion heq
      | ok tsp =>
        rw [hp] at heq
        injection heq with h2
        subst h2
        rw [ih (acc ++ tsp) ts he t, List.mem_append]
        constructor
        · rintro ((hacc | htsp) | ⟨q, hq, tsq, hpq, htq⟩)
          · exact Or.inl hacc
          · exact Or.inr ⟨p, List.mem_cons_self p rest, tsp, hp, htsp⟩
          · exact Or.inr ⟨q, List.mem_cons_of_mem p hq, tsq, hpq, htq⟩
        · rintro (hacc | ⟨q, hq, tsq, hpq, htq⟩)
          · exact Or.inl (Or.inl hacc)
          · rcases List.mem_cons.mp hq with rfl | hq'
            · rw [hp] at hpq
              injection hpq with h3
              subst h3
              exact Or.inl (Or.inr htq)
            · exact Or.inr ⟨q, hq', tsq, hpq, htq⟩

theorem procParam_F (s : Settings) (cn : String) (cp loc : List (String × PyFloat))
    (v fv : PyFloat) (hv : qLookup cp "F" = some v) (hf : qLookup loc "F" = some fv) :
    procParam s cn cp loc [] "F" =
      .ok (if (!pyBeq fv v || s.OUTPUT_DOUBLES) then
             if !(cn == "G0" || cn == "G00") then
               if pyLt pyZero (s.convSpeed v) then
                 ["F" ++ fmtFix s.PRECISION (s.convSpeed v)]
               else []
             else []
           else []) := by
  unfold procParam fTestE
  rw [hv, hf]
  have h3 : ((some fv : Option PyFloat) == some v) = pyBeq fv v := rfl
  cases hft : (!pyBeq fv v || s.OUTPUT_DOUBLES) with
  | true =>
    simp [hft]
    split
    · split <;> rfl
    · rfl
  | false =>
    have h1 : pyBeq fv v = true := by
      cases hB : pyBeq fv v
      · rw [hB] at hft; simp at hft
      · rfl
    have h2 : s.OUTPUT_DOUBLES = false := by
      cases hD : s.OUTPUT_DOUBLES
      · rfl
      · rw [hD] at hft; simp at hft
    simp [hft, h1, h2, h3]

theorem headChar_lit (c : Char) (cs : List Char) (t : String) :
    headChar (String.mk (c :: cs) ++ t) = some c := rfl

theorem fTok_ne {p : String} (hp : p ∈ paramsOrder) (hne : p ≠ "F")
    (fm sf : String) : "F" ++ fm ≠ p ++ sf := by
  intro h
  fin_cases hp
  all_goals first
    | exact hne rfl
    | exact absurd ((headChar_lit 'F' [] fm).symm.trans
        ((congrArg headChar h).trans (headChar_lit _ [] sf))) (by decide)

theorem procParam_axis (s : Settings) (cn : String)
    (cp loc : List (String × PyFloat)) (p : String) (v : PyFloat)
    (hpF : p ≠ "F") (hpT : p ≠ "T") (hpH : p ≠ "H") (hpD : p ≠ "D") (hpS : p ≠ "S")
    (hv : qLookup cp p = some v) (hl : qLookup loc p = some v) :
    procParam s cn cp loc [] p =
      .ok (if s.OUTPUT_DOUBLES then
             [p ++ fmtFix s.PRECISION (s.convLength v)]
           else []) := by
  unfold procParam fTestE
  rw [hv, hl]
  have h3 : ((some v : Option PyFloat) == some v) = pyBeq v v := rfl
  have h4 : pyBeq v v = true := by simp [pyBeq]
  cases hD : s.OUTPUT_DOUBLES with
  | true => simp [hpF, hpT, hpH, hpD, hpS, hD]
  | false => simp [hpF, hpT, hpH, hpD, hpS, hD, h3, h4]

/-! ## Claim C8 -/

/-- Claim C8: for every command carrying an `F` parameter, the `F` token is
suppressed entirely for the two rapid spellings (`G0`, `G00`); otherwise the
token `F<converted-and-formatted value>` appears among the tokens produced by
the parameter loop if and only if the converted value is strictly positive
and either the raw value differs from the tracked current feed or duplicate
output is forced on. -/
theorem c8_feed_rule (s : Settings) (cname : String)
    (cparams loc : List (String × PyFloat)) (v fv : PyFloat)
    (hv : qLookup cparams "F" = some v) (hf : qLookup loc "F" = some fv) :
    ∃ ts, buildParams s cname cparams loc [] = .ok ts ∧
      (("F" ++ fmtFix s.PRECISION (s.convSpeed v)) ∈ ts ↔
        ((cname == "G0" || cname == "G00") = false ∧
         pyLt pyZero (s.convSpeed v) = true ∧
         (pyBeq fv v = false ∨ s.OUTPUT_DOUBLES = true))) := by
  have hfs : (qLookup loc "F").isSome := by rw [hf]; rfl
  obtain ⟨ts, hts⟩ := buildParams_isOk s cname cparams loc [] hfs
  refine ⟨ts, hts, ?_⟩
  rw [buildParamsAux_mem s cname cparams loc paramsOrder [] ts hts]
  simp only [List.not_mem_nil, false_or]
  constructor
  · rintro ⟨p, hp, tsp, hpp, htp⟩
    by_cases hpF : p = "F"
    · subst hpF
      rw [procParam_F s cname cparams loc v fv hv hf] at hpp
      injection hpp with h2
      subst h2
      split at htp
      · split at htp
        · split at htp
          · rename_i hcond hrapid hpos
            refine ⟨by simpa using hrapid, hpos, ?_⟩
            simpa [Bool.or_eq_true, Bool.not_eq_true'] using hcond
          · exact absurd htp (List.not_mem_nil _)
        · exact absurd htp (List.not_mem_nil _)
      · exact absurd htp (List.not_mem_nil _)
    · obtain ⟨suf, hsuf⟩ := procParam_shape hpp _ htp
      exact absurd hsuf (fTok_ne hp hpF _ _)
  · rintro ⟨hrapid, hpos, hcond⟩
    have c1 : (!pyBeq fv v || s.OUTPUT_DOUBLES) = true := by
      rcases hcond with h | h <;> simp [h]
    have c2 : (!(cname == "G0" || cname == "G00")) = true := by simp [hrapid]
    refine ⟨"F", by simp [paramsOrder], _,
      procParam_F s cname cparams loc v fv hv hf, ?_⟩
    rw [if_pos c1, if_pos c2, if_pos hpos]
    exact List.mem_singleton_self _

/-- Claim C8, witness: a `G1` with `F = 100` against a tracked feed of `0`,
identity speed conversion and duplicate output on emits the `F` token. -/
theorem c8_feed_rule_witness :
    ∃ ts, buildParams sBase "G1" [("F", qInt 100)] firstmoveParams [] = .ok ts ∧
      (("F" ++ fmtFix sBase.PRECISION (sBase.convSpeed (qInt 100))) ∈ ts ↔
        (("G1" == "G0" || "G1" == "G00") = false ∧
         pyLt pyZero (sBase.convSpeed (qInt 100)) = true ∧
         (pyBeq pyZero (qInt 100) = false ∨ sBase.OUTPUT_DOUBLES = true))) :=
  c8_feed_rule sBase "G1" [("F", qInt 100)] firstmoveParams (qInt 100) pyZero
    (by rfl) (by rfl)

/-! ## Claim C9 -/

/-- The returned text of a successful export (empty on error). -/
def okText : Except PExc (String × GState) → String
  | .ok r => r.1
  | .error _ => ""

/-- The final global state of a successful export (`initGState` on error). -/
def okGState : Except PExc (String × GState) → GState
  | .ok r => r.2
  | .error _ => initGState

/-- Claim C9 (amended): a command named `G99` contributes no token, no output
line and no tracked-state update — the loop body returns the accumulator and
both state records unchanged. -/
theorem c9_g99_dropped (s : Settings) (tl : String) (c : Command)
    (out : PyOut) (ls : LState) (gs : GState) (hname : c.name = "G99") :
    processCommand s tl c out ls gs = .ok (out, ls, gs) := by
  obtain ⟨nm, cps⟩ := c
  simp only at hname
  subst hname
  unfold processCommand
  cases hM : (s.MODAL && (ls.lastcommand == some "G99")) <;> simp [hM]

/-- Claim C9, witness for the amended theorem: a concrete `G99 Z1` command
leaves accumulator, local state and global state untouched. -/
theorem c9_g99_dropped_witness :
    processCommand sBase "T2" ⟨"G99", [("Z", qInt 1)]⟩ ⟨"", false⟩ initLState
      initGState = .ok (⟨"", false⟩, initLState, initGState) :=
  c9_g99_dropped sBase "T2" ⟨"G99", [("Z", qInt 1)]⟩ ⟨"", false⟩ initLState
    initGState rfl

/-- A configuration whose preamble text is the single line `G99`. -/
def sC9 : Settings := { sPlain with PREAMBLE := "G99" }

/-- Claim C9, counterexample to the claim as stated: under the configuration
whose preamble is `G99`, the emitted output of an export of the empty
container list does contain the string `G99`, so `G99` is not absent from
the output under *every* configuration. -/
theorem c9_counterexample :
    strContains (okText (exportText sC9 [] initGState)) "G99" = true := rfl

/-! ## Claim C7 -/

/-- A name that starts with `'('` is none of the special command names. -/
theorem paren_name_ne {nm : String} {rest : List Char}
    (hdata : nm.data = '(' :: rest) (other : String) (c0 : Char)
    (hother : other.data = c0 :: other.data.tail) (hc0 : c0 ≠ '(') :
    (nm == other) = false := by
  apply beq_eq_false_iff_ne.mpr
  intro hEq
  subst hEq
  rw [hdata] at hother
  exact hc0 (List.head_eq_of_cons_eq hother.symm)

/-- Claim C7, counterexample to the claim as stated: a comment command that
carries an `X` parameter, with comments enabled, emits the bracket-rewritten
comment *followed by the parameter token* — the other parameter tokens are
not dropped. -/
theorem c7_counterexample :
    processCommand sBase "T2" ⟨"(hi)", [("X", qInt 2)]⟩ ⟨"", false⟩ initLState
      initGState =
      .ok (⟨"[hi] X2.000 \n", false⟩,
           ⟨some "(hi)",
            [("X", qInt 2), ("Y", qInt (-1)), ("Z", qInt (-1)), ("F", pyZero)]⟩,
           initGState) ∧
    (⟨"[hi] X2.000 \n", false⟩ : PyOut) ≠ ⟨"[hi] \n", false⟩ :=
  ⟨rfl, by decide⟩

/-- Claim C7 (amended): for a command whose name begins with `'('`: with
comments disabled the whole command is discarded (no output, no state
update); with comments enabled — and except in the corner where modal mode
has already removed the repeated name, which makes `outstring.pop()` raise
an `IndexError` — the emitted line is the bracket-rewritten comment followed
by whatever tokens the normal parameter rules produce for the command's own
parameters (they are *not* dropped), and the tracked state is updated. -/
theorem c7_comment_rule (s : Settings) (tl : String) (c : Command) (out : PyOut)
    (ls : LState) (gs : GState) (rest : List Char)
    (hdata : c.name.data = '(' :: rest)
    (hF : (qLookup ls.currLocation "F").isSome) :
    (s.OUTPUT_COMMENTS = false → processCommand s tl c out ls gs = .ok (out, ls, gs)) ∧
    (s.OUTPUT_COMMENTS = true →
      (s.MODAL && (ls.lastcommand == some c.name)) = false →
      ∃ toks,
        buildParams s c.name c.parameters ls.currLocation [rewriteComment c.name] =
          .ok toks ∧
        processCommand s tl c out ls gs =
          .ok ((genericEmit s toks out gs).1,
               ⟨some c.name, updMap ls.currLocation c.parameters⟩,
               (genericEmit s toks out gs).2)) ∧
    (s.OUTPUT_COMMENTS = true →
      (s.MODAL && (ls.lastcommand == some c.name)) = true →
      processCommand s tl c out ls gs = .error .indexError) := by
  have hne99 : (c.name == "G99") = false :=
    paren_name_ne hdata "G99" 'G' rfl (by decide)
  have hneM6 : (c.name == "M6") = false :=
    paren_name_ne hdata "M6" 'M' rfl (by decide)
  have hneMsg : (c.name == "message") = false :=
    paren_name_ne hdata "message" 'm' rfl (by decide)
  refine ⟨?_, ?_, ?_⟩
  · intro hc
    unfold processCommand
    rw [hdata]
    simp [hc]
  · intro hc hmod
    obtain ⟨toks, htoks⟩ := buildParams_isOk s c.name c.parameters
      ls.currLocation [rewriteComment c.name] hF
    refine ⟨toks, htoks, ?_⟩
    unfold processCommand
    rw [hdata]
    simp only [hmod, Bool.false_eq_true, if_false, hc, Bool.not_true,
      Bool.and_false, beq_self_eq_true, if_true]
    simp only [commentTokens, pyPopLast, List.isEmpty_cons, List.dropLast_single,
      List.nil_append, hne99, Bool.false_eq_true, if_false, htoks, hneM6, hneMsg]
  · intro hc hmod
    unfold processCommand
    rw [hdata]
    simp [hmod, hc, commentTokens, pyPopLast]

/-- Claim C7, witness: the comments-disabled discard and the comments-enabled
bracket-rewrite branches at a concrete comment command `(hi) X2`. -/
theorem c7_comment_rule_witness :
    (processCommand sPlain "T2" ⟨"(hi)", [("X", qInt 2)]⟩ ⟨"", false⟩ initLState
        initGState = .ok (⟨"", false⟩, initLState, initGState)) ∧
    ∃ toks,
      buildParams sBase "(hi)" [("X", qInt 2)] initLState.currLocation
          [rewriteComment "(hi)"] = .ok toks ∧
      processCommand sBase "T2" ⟨"(hi)", [("X", qInt 2)]⟩ ⟨"", false⟩ initLState
          initGState =
        .ok ((genericEmit sBase toks ⟨"", false⟩ initGState).1,
             ⟨some "(hi)", updMap initLState.currLocation [("X", qInt 2)]⟩,
             (genericEmit sBase toks ⟨"", false⟩ initGState).2) :=
  ⟨(c7_comment_rule sPlain "T2" ⟨"(hi)", [("X", qInt 2)]⟩ ⟨"", false⟩ initLState
      initGState ['h', 'i', ')'] rfl rfl).1 rfl,
   (c7_comment_rule sBase "T2" ⟨"(hi)", [("X", qInt 2)]⟩ ⟨"", false⟩ initLState
      initGState ['h', 'i', ')'] rfl rfl).2.1 rfl rfl⟩

/-! ## Claim C5 -/

theorem strAppend_empty (a : String) : a ++ "" = a := by
  cases a with
  | mk d =>
    show String.mk (d ++ []) = String.mk d
    rw [List.append_nil]

theorem strAppend_assoc (a b c : String) : a ++ b ++ c = a ++ (b ++ c) := by
  cases a with
  | mk x =>
    cases b with
    | mk y =>
      cases c with
      | mk z =>
        show String.mk (x ++ y ++ z) = String.mk (x ++ (y ++ z))
        rw [List.append_assoc]

theorem pyAppend_empty (o : PyOut) : pyAppend o "" = o := by
  cases o with
  | mk t b =>
    show PyOut.mk (t ++ "") b = PyOut.mk t b
    rw [strAppend_empty]

theorem pyAppend_append (o : PyOut) (a b : String) :
    pyAppend (pyAppend o a) b = pyAppend o (a ++ b) := by
  cases o with
  | mk t f =>
    show PyOut.mk (t ++ a ++ b) f = PyOut.mk (t ++ (a ++ b)) f
    rw [strAppend_assoc]

/-- With numbering off, emitting a block line by line appends its
concatenation and leaves the global state alone. -/
theorem emitBlockOut_noNum {s : Settings} (hoff : s.OUTPUT_LINE_NUMBERS = false)
    (lines : List String) : ∀ (out : PyOut) (gs : GState),
    emitBlockOut s lines out gs = (pyAppend out (strJoin lines), gs) := by
  induction lines with
  | nil => intro out gs; simp [emitBlockOut, strJoin, pyAppend_empty]
  | cons l rest ih =>
    intro out gs
    show emitBlockOut s rest (pyAppend out ((linenumber s gs).1 ++ l))
          (linenumber s gs).2 = _
    rw [show linenumber s gs = ("", gs) by unfold linenumber; rw [hoff]; rfl]
    rw [ih]
    show (pyAppend (pyAppend out ("" ++ l)) (strJoin rest), gs) = _
    rw [pyAppend_append]
    simp only [strJoin]
    rw [show ("" ++ l : String) = l by cases l; rfl]

/-- Claim C5, counterexample to the claim as stated: with skip-first enabled,
the first `M6` of a run produces no output and flips the skip flag, but the
tracked state is *not* left unchanged — `lastCommand` becomes `M6` (not the
preceding `G1`) and the `T` parameter of the `M6` is merged into
`currentLocation` (the state merge of step 6 runs before the skip check). -/
theorem c5_counterexample :
    processCommands sBase "T2" [⟨"G1", [("X", qInt 1)]⟩, ⟨"M6", [("T", qInt 2)]⟩]
      ⟨"", false⟩ initLState initGState =
      .ok (⟨"G1 X1.000 \n", false⟩,
           ⟨some "M6", [("X", qInt 1), ("Y", qInt (-1)), ("Z", qInt (-1)),
                        ("F", pyZero), ("T", qInt 2)]⟩,
           ⟨100, true, []⟩) ∧
    some "M6" ≠ some "G1" ∧
    qLookup [("X", qInt 1), ("Y", qInt (-1)), ("Z", qInt (-1)), ("F", pyZero),
             ("T", qInt 2)] "T" ≠
      qLookup [("X", qInt 1), ("Y", qInt (-1)), ("Z", qInt (-1)), ("F", pyZero)]
        "T" :=
  ⟨rfl, by decide, by decide⟩

set_option maxRecDepth 4000 in
/-- Claim C5 (amended): with skip-first enabled, an `M6` whose skip has not
yet happened emits nothing and flips the flag, while every later `M6` emits
the pre-tool-change block, the notification naming the pending tool's label
and the measurement block, and never reaches the generic token path (so no
raw `M6` token is written); in both cases `lastCommand` is set to `M6` and
the command's parameters are merged into `currentLocation` first.  With
numbering off the later-`M6` emission is literally the three text blocks,
and `M6` does not occur in them (for the concrete label `T2`). -/
theorem c5_toolchange_rule (s : Settings) (tl : String) (c : Command)
    (out : PyOut) (ls : LState) (gs : GState)
    (hname : c.name = "M6") (hskip : s.SKIP_FIRST_TOOLCHANGE = true)
    (hF : (qLookup ls.currLocation "F").isSome) :
    (gs.first_tool_change_skipped = false →
      processCommand s tl c out ls gs =
        .ok (out, ⟨some "M6", updMap ls.currLocation c.parameters⟩,
             { gs with first_tool_change_skipped := true })) ∧
    (gs.first_tool_change_skipped = true →
      processCommand s tl c out ls gs =
        .ok ((emitToolChange s tl out gs).1,
             ⟨some "M6", updMap ls.currLocation c.parameters⟩,
             (emitToolChange s tl out gs).2)) ∧
    (s.OUTPUT_LINE_NUMBERS = false →
      emitToolChange s tl out gs =
        (pyAppend out (PRE_TOOL_CHANGE ++ toolChangeNotificationText tl ++
          TOOL_CHANGE), gs)) ∧
    strContains (PRE_TOOL_CHANGE ++ toolChangeNotificationText "T2" ++
      TOOL_CHANGE) "M6" = false := by
  obtain ⟨nm, cps⟩ := c
  simp only at hname
  subst hname
  obtain ⟨toksA, hA⟩ := buildParams_isOk s "M6" cps ls.currLocation ["M6"] hF
  obtain ⟨toksB, hB⟩ := buildParams_isOk s "M6" cps ls.currLocation [] hF
  refine ⟨?_, ?_, ?_, ?_⟩
  · intro hflag
    unfold processCommand
    cases hM : (s.MODAL && (ls.lastcommand == some "M6")) <;>
      simp [hM, hskip, hflag, hA, hB]
  · intro hflag
    unfold processCommand
    cases hM : (s.MODAL && (ls.lastcommand == some "M6")) <;>
      simp [hM, hskip, hflag, hA, hB]
  · intro hoff
    unfold emitToolChange
    rw [emitBlockOut_noNum hoff, emitBlockOut_noNum hoff]
    rw [show strJoin (pySplitlines true PRE_TOOL_CHANGE) = PRE_TOOL_CHANGE from rfl]
    rw [show strJoin (pySplitlines true TOOL_CHANGE) = TOOL_CHANGE from rfl]
    rw [pyAppend_append, pyAppend_append, strAppend_assoc]
  · rfl

/-- Claim C5, witness: a first `M6 T2` (fresh flag) is silent and flips the
flag; the same command with the flag already set emits via the tool-change
macro path. -/
theorem c5_toolchange_rule_witness :
    (processCommand sBase "T2" ⟨"M6", [("T", qInt 2)]⟩ ⟨"", false⟩ initLState
        initGState =
      .ok (⟨"", false⟩,
           ⟨some "M6", updMap initLState.currLocation [("T", qInt 2)]⟩,
           { initGState with first_tool_change_skipped := true })) ∧
    (processCommand sBase "T2" ⟨"M6", [("T", qInt 2)]⟩ ⟨"", false⟩ initLState
        ⟨100, true, []⟩ =
      .ok ((emitToolChange sBase "T2" ⟨"", false⟩ ⟨100, true, []⟩).1,
           ⟨some "M6", updMap initLState.currLocation [("T", qInt 2)]⟩,
           (emitToolChange sBase "T2" ⟨"", false⟩ ⟨100, true, []⟩).2)) :=
  ⟨(c5_toolchange_rule sBase "T2" ⟨"M6", [("T", qInt 2)]⟩ ⟨"", false⟩ initLState
      initGState rfl rfl rfl).1 rfl,
   (c5_toolchange_rule sBase "T2" ⟨"M6", [("T", qInt 2)]⟩ ⟨"", false⟩ initLState
      ⟨100, true, []⟩ rfl rfl rfl).2.1 rfl⟩

/-! ## Claim C2 -/

/-- The module defaults with identity conversions and a fixed timestamp. -/
def mdBase : Settings := moduleDefaults (fun q => q) (fun q => q) "2022-01-01 00:00:00"

/-- The flag record for `--no-header --no-comments --axis-modal` with empty
preamble/postamble overrides. -/
def argsC2 : Args := { no_header := true, no_comments := true, axis_modal := true,
                       preamble := some "", postamble := some "" }

/-- The resolved settings for `argsC2`. -/
def sC2 : Settings := processArguments argsC2 mdBase

/-- One path object whose two consecutive commands share the axis value `X5`. -/
def objX5 : PathObj :=
  .simple { infoBase with path := some [⟨"G1", [("X", qInt 5)]⟩, ⟨"G1", [("X", qInt 5)]⟩] }

/-- Claim C2, counterexample to the claim as stated: under `--axis-modal`
(resolved through `processArguments`), two consecutive commands sharing the
axis value `X5` produce only *one* `X5.000` token — the second occurrence is
omitted, not still emitted: supplying `--axis-modal` turns duplicate-axis
suppression on, not off. -/
theorem c2_counterexample :
    exportText sC2 [objX5] initGState =
      .ok ("G20\t\t[Units: in]\n\nG1 X5.000 \nG1 \n\n", initGState) ∧
    countSub "X5.000".data ("G20\t\t[Units: in]\n\nG1 X5.000 \nG1 \n\n").data = 1 :=
  ⟨rfl, rfl⟩

/-- Claim C2 (amended): `--axis-modal` *disables duplicate output* (it sets
`OUTPUT_DOUBLES := false`, i.e. it enables duplicate-axis suppression, the
reverse of the claimed direction); and for an axis parameter whose value
equals the tracked current value, the parameter loop emits the token exactly
when duplicate output is enabled and omits it exactly when duplicate output
is disabled. -/
theorem c2_axis_modal_rule :
    (∀ (args : Args) (s : Settings),
        (processArguments args s).OUTPUT_DOUBLES =
          (if args.axis_modal then false else s.OUTPUT_DOUBLES)) ∧
    (∀ (s : Settings) (cn p : String) (cp loc : List (String × PyFloat))
        (v : PyFloat),
        p ≠ "F" → p ≠ "T" → p ≠ "H" → p ≠ "D" → p ≠ "S" →
        qLookup cp p = some v → qLookup loc p = some v →
        procParam s cn cp loc [] p =
          .ok (if s.OUTPUT_DOUBLES then [p ++ fmtFix s.PRECISION (s.convLength v)]
               else [])) := by
  constructor
  · intro args s
    unfold processArguments
    cases hpre : args.preamble <;> cases hpost : args.postamble <;>
      simp [apply_ite Settings.OUTPUT_DOUBLES]
  · intro s cn p cp loc v h1 h2 h3 h4 h5 hv hl
    exact procParam_axis s cn cp loc p v h1 h2 h3 h4 h5 hv hl

/-- Claim C2, witness: the resolver instance (`--axis-modal` yields
`OUTPUT_DOUBLES = false`) and a suppressed duplicate `X5` under it. -/
theorem c2_axis_modal_rule_witness :
    ((processArguments argsC2 mdBase).OUTPUT_DOUBLES =
      (if argsC2.axis_modal then false else mdBase.OUTPUT_DOUBLES)) ∧
    procParam sC2 "G1" [("X", qInt 5)] [("X", qInt 5)] [] "X" =
      .ok (if sC2.OUTPUT_DOUBLES then
             ["X" ++ fmtFix sC2.PRECISION (sC2.convLength (qInt 5))]
           else []) :=
  ⟨c2_axis_modal_rule.1 argsC2 mdBase,
   c2_axis_modal_rule.2 sC2 "G1" "X" [("X", qInt 5)] [("X", qInt 5)] (qInt 5)
     (by decide) (by decide) (by decide) (by decide) (by decide) rfl rfl⟩

/-! ## Claim C1 -/

/-- One path object whose leaf holds an ordinary move followed by a
`message` pseudo-command. -/
def objC1 : PathObj :=
  .simple { infoBase with path := some [⟨"G1", [("X", qInt 2)]⟩, ⟨"message", []⟩] }

/-- Claim C1 evaluated at the failing input.  With comments enabled the
message branch does drop only the name token and emits the payload
parameter (third conjunct).  But with comments disabled, `out = []` replaces
the *whole accumulated leaf output* with an empty Python list: the earlier
`G1 X2.000` line is lost, the message tokens are then appended to that list
(first conjunct: the leaf returns the list `"message \n"`, earlier output
gone), and when `export` concatenates the returned list into its string
buffer a `TypeError` is raised, aborting the run (second conjunct) — the
branch is not a never-raising policy branch. -/
theorem c1_message_no_comments_bug :
    parse sPlain objC1 initGState = .ok (⟨"message \n", true⟩, initGState) ∧
    exportText sPlain [objC1] initGState = .error .typeError ∧
    processCommand sBase "T2" ⟨"message", [("P", qInt 4)]⟩ ⟨"", false⟩ initLState
      initGState =
      .ok (⟨"P4.000 \n", false⟩,
           ⟨some "message",
            [("X", qInt (-1)), ("Y", qInt (-1)), ("Z", qInt (-1)), ("F", pyZero),
             ("P", qInt 4)]⟩,
           initGState) :=
  ⟨rfl, rfl, rfl⟩

/-! ## Claim C4 -/

/-- Claim C4: the emitter is a pure function of the containers, the settings
and the threaded state, so two invocations with identical containers and
settings, each given the fresh initial state, return identical results —
in particular byte-identical output text. -/
theorem c4_idempotent (s : Settings) (objs : List PathObj) (gs1 gs2 : GState)
    (h1 : gs1 = initGState) (h2 : gs2 = initGState) :
    exportText s objs gs1 = exportText s objs gs2 := by
  rw [h1, h2]

/-- Claim C4, witness: the two fresh-state invocations on a concrete input
agree. -/
theorem c4_idempotent_witness :
    exportText sBase [objX5] initGState = exportText sBase [objX5] initGState :=
  c4_idempotent sBase [objX5] initGState initGState rfl rfl

/-! ## Claim C6 -/

/-- `sPlain` with line numbering switched on. -/
def s6 : Settings := { sPlain with OUTPUT_LINE_NUMBERS := true }

/-- Claim C6, counterexample to the claim as stated: with line numbering on,
the first line number a fresh export emits is `110`, not the configured base
`100` — `LINENR` is advanced by the increment *before* each use. -/
theorem c6_counterexample :
    okGState (exportText s6 [] initGState) = ⟨110, false, [110]⟩ ∧
    (okGState (exportText s6 [] initGState)).emitted ≠ [100] ∧
    okText (exportText s6 [] initGState) = "N110 G20\t\t[Units: in]\n\n" :=
  ⟨rfl, by decide, rfl⟩

/-- Claim C6 (amended): in one export from the fresh initial state, the
emitted line numbers are exactly `110, 120, 130, ...` — strictly increasing
by the configured increment 10, starting at base + increment — and `LINENR`
advances by exactly one increment per emitted number; with numbering
disabled the counter never advances and nothing is emitted. -/
theorem c6_line_numbers (s : Settings) (objs : List PathObj) (txt : String)
    (gs' : GState) (h : exportText s objs initGState = .ok (txt, gs')) :
    gs'.emitted = arithProg gs'.emitted.length ∧
    gs'.LINENR = 100 + 10 * gs'.emitted.length ∧
    (s.OUTPUT_LINE_NUMBERS = false → gs'.LINENR = 100 ∧ gs'.emitted = []) := by
  have hnums := pres_exportText (stepClosed_numsOK s)
    (show numsOK initGState from ⟨rfl, rfl⟩) h
  refine ⟨hnums.1, hnums.2, ?_⟩
  intro hoff
  exact pres_exportText (stepClosed_frozen s hoff 100 []) ⟨rfl, rfl⟩ h

/-- Claim C6, witness: the run of `s6` over no containers emits exactly the
progression of length one, `[110]`. -/
theorem c6_line_numbers_witness :
    ([110] : List Nat) = arithProg 1 ∧ (110 : Nat) = 100 + 10 * 1 :=
  ⟨(c6_line_numbers s6 [] "N110 G20\t\t[Units: in]\n\n" ⟨110, false, [110]⟩ rfl).1,
   (c6_line_numbers s6 [] "N110 G20\t\t[Units: in]\n\n" ⟨110, false, [110]⟩ rfl).2.1⟩

/-! ## Claim C3 -/

/-- One path object whose leaf holds a single `M6 T2`. -/
def objM6 : PathObj := .simple { infoBase with path := some [⟨"M6", [("T", qInt 2)]⟩] }

set_option maxRecDepth 8000 in
/-- Claim C3, counterexample to the claim as stated: `export` does not start
from a fresh state.  Threading the global state left by a first export of a
single-`M6` job into a second, textually identical export call changes the
output (the second run's `M6` is no longer skipped, because
`first_tool_change_skipped` was left `true` and is never reset). -/
theorem c3_counterexample :
    (okGState (exportText sPlain [objM6] initGState)).first_tool_change_skipped
      = true ∧
    okText (exportText sPlain [objM6]
        (okGState (exportText sPlain [objM6] initGState))) ≠
      okText (exportText sPlain [objM6] initGState) :=
  ⟨rfl, by decide⟩

/-- Claim C3 (amended): the emitter state is not scoped to one export run.
`export` continues from whatever global state it is handed: a
`first_tool_change_skipped` already `true` stays `true` (it is never reset,
so no later run skips again) and `LINENR` only ever grows from its
carried-in value.  `lastCommand` and `currentLocation`, in contrast, are
created fresh for every `parse` call — so with duplicate suppression active
an axis value suppressed inside one container is emitted again at the start
of the next container (second conjunct: the same `X5` pair in two sibling
containers yields `X5.000` twice, once per container, while the repeat
inside each container is suppressed). -/
theorem c3_state_rule :
    (∀ (s : Settings) (objs : List PathObj) (gs : GState) (txt : String)
        (gs' : GState), exportText s objs gs = .ok (txt, gs') →
        (gs.first_tool_change_skipped = true →
          gs'.first_tool_change_skipped = true) ∧
        gs.LINENR ≤ gs'.LINENR) ∧
    (exportText sC2 [objX5, objX5] initGState =
      .ok ("G20\t\t[Units: in]\n\nG1 X5.000 \nG1 \n\nG1 X5.000 \nG1 \n\n",
           initGState) ∧
     countSub "X5.000".data
       ("G20\t\t[Units: in]\n\nG1 X5.000 \nG1 \n\nG1 X5.000 \nG1 \n\n").data = 2) := by
  refine ⟨?_, rfl, rfl⟩
  intro s objs gs txt gs' h
  constructor
  · intro hf
    exact pres_exportText (stepClosed_flagTrue s) hf h
  · exact pres_exportText (stepClosed_lineMono s gs.LINENR) (le_refl _) h

/-- Claim C3, witness: a run handed `LINENR = 200` and a set skip flag keeps
the flag and continues numbering from 200 (the units line comes out as
`N210`). -/
theorem c3_state_rule_witness :
    ((⟨210, true, [42, 210]⟩ : GState).first_tool_change_skipped = true) ∧
    (200 : Nat) ≤ (⟨210, true, [42, 210]⟩ : GState).LINENR := by
  have := c3_state_rule.1 s6 [] ⟨200, true, [42]⟩ "N210 G20\t\t[Units: in]\n\n"
    ⟨210, true, [42, 210]⟩ rfl
  exact ⟨this.1 rfl, this.2⟩

/-! ## Claim C10 -/

theorem findNoPath_some :
    ∀ (objs : List PathObj), (∃ o ∈ objs, o.info.path = none) →
      ∃ info, findNoPath objs = some info ∧ info.path = none := by
  intro objs
  induction objs with
  | nil => rintro ⟨o, ho, _⟩; exact absurd ho (List.not_mem_nil o)
  | cons a rest ih =>
    rintro ⟨o, ho, hp⟩
    by_cases ha : a.info.path.isNone
    · exact ⟨a.info, by simp [findNoPath, ha], Option.isNone_iff_eq_none.mp ha⟩
    · rcases List.mem_cons.mp ho with rfl | ho'
      · exact absurd (by rw [hp]; rfl) ha
      · obtain ⟨info, h1, h2⟩ := ih ⟨o, ho', hp⟩
        exact ⟨info, by simp [findNoPath, ha, h1], h2⟩

/-- A simple child without a `Path` attribute contributes nothing to a group
parse: it can be inserted anywhere among the children without changing the
result or the state. -/
theorem parseGroup_skip_nopath {s : Settings} {info : ObjInfo}
    (hpath : info.path = none) (post : PathList) :
    ∀ (pre : PathList) (out : PyOut) (gs : GState),
      parseGroup s (plAppend pre (.cons (.simple info) post)) out gs =
        parseGroup s (plAppend pre post) out gs := by
  intro pre
  cases pre with
  | nil =>
    intro out gs
    show parseGroup s (.cons (.simple info) post) out gs = parseGroup s post out gs
    simp only [parseGroup, parse, hpath]
    simp [pyAppend_empty]
  | cons p rest =>
    intro out gs
    rw [show plAppend (PathList.cons p rest) (PathList.cons (PathObj.simple info)
          post) = PathList.cons p (plAppend rest (PathList.cons
          (PathObj.simple info) post)) from rfl,
        show plAppend (PathList.cons p rest) post =
          PathList.cons p (plAppend rest post) from rfl]
    simp only [parseGroup]
    cases hp : parse s p gs with
    | error e => rfl
    | ok r =>
      obtain ⟨o, gs2⟩ := r
      cases hLis : o.isList with
      | true => simp [hLis]
      | false => simp [hLis, parseGroup_skip_nopath hpath post rest]

/-- Claim C10: a top-level container without a usable path representation
makes the whole export abort with a `notAPath` error naming the offending
container, producing no output text; a pathless leaf nested inside a group
contributes nothing — removing it from the children changes neither output
nor state, and no error results. -/
theorem c10_error_rule :
    (∀ (s : Settings) (gs : GState) (objs : List PathObj),
        (∃ o ∈ objs, o.info.path = none) →
        ∃ info : ObjInfo, info.path = none ∧ findNoPath objs = some info ∧
          exportText s objs gs = .error (.notAPath info.name)) ∧
    (∀ (s : Settings) (gs : GState) (pre post : PathList) (info : ObjInfo)
        (out : PyOut), info.path = none →
        parseGroup s (plAppend pre (.cons (.simple info) post)) out gs =
          parseGroup s (plAppend pre post) out gs) := by
  constructor
  · intro s gs objs hex
    obtain ⟨info, h1, h2⟩ := findNoPath_some objs hex
    refine ⟨info, h2, h1, ?_⟩
    unfold exportText
    rw [h1]
  · intro s gs pre post info out hpath
    exact parseGroup_skip_nopath hpath post pre out gs

/-- Claim C10, witness: a single pathless top-level container aborts with its
name, and a pathless leaf inside a group is tolerated. -/
theorem c10_error_rule_witness :
    exportText sBase [PathObj.simple infoBase] initGState =
      .error (.notAPath "op") ∧
    parseGroup sBase (plAppend .nil (.cons (.simple infoBase) .nil)) ⟨"", false⟩
        initGState =
      parseGroup sBase (plAppend .nil .nil) ⟨"", false⟩ initGState := by
  constructor
  · obtain ⟨info, hp, hf, he⟩ := c10_error_rule.1 sBase initGState
      [PathObj.simple infoBase]
      ⟨PathObj.simple infoBase, List.mem_singleton_self _, rfl⟩
    have hinfo : info = infoBase := by
      have h0 : findNoPath [PathObj.simple infoBase] = some infoBase := rfl
      rw [h0] at hf
      exact (Option.some.inj hf).symm
    rw [hinfo] at he
    exact he
  · exact c10_error_rule.2 sBase initGState .nil .nil infoBase ⟨"", false⟩ rfl
